import Mathlib

/-!
Verification of the job-watching core of `workflow_job_template.go` (package awx).

The Go file's interesting logic is `DefaultJobHandler` (a background goroutine
polling a job's status and handing exactly one outcome to the caller over an
unbuffered channel), `Launch` (launch a workflow job, validate the returned job
id, delegate to a caller-supplied handler) and `CreateJobTemplate` (validate
mandatory payload fields before issuing the request).

The HTTP transport (`Requester.GetJSON` / `PostJSON`) and the HTTP-level
response validation (`CheckResponse`) are external collaborators; each poll is
therefore modelled by its observable effect on the function under scrutiny: did
`GetJSON` return a non-nil error, did `CheckResponse` return a non-nil error,
and what value does `result.Status` hold after the call (the decode writes into
the long-lived `result` object; a failed request leaves it unchanged).
-/

namespace Awx

/-- Models the status constant `PENDING = JobStatus("pending")`. -/
def PENDING : String := "pending"

/-- Models the status constant `WAITING = JobStatus("waiting")`. -/
def WAITING : String := "waiting"

/-- Models the status constant `RUNNING = JobStatus("running")`. -/
def RUNNING : String := "running"

/-- Models the status constant `SUCCESSFUL = JobStatus("successful")`. -/
def SUCCESSFUL : String := "successful"

/-- Models the in-flight test on line 130 of the source:
`result.Status != string(PENDING) && result.Status != string(WAITING) && result.Status != string(RUNNING)`
is the negation of this predicate. -/
def inFlightStatus (s : String) : Bool :=
  s == PENDING || s == WAITING || s == RUNNING

/-- One iteration's interaction with the transport collaborator inside the
polling loop of `DefaultJobHandler`:
`getErr` models `jt.client.Requester.GetJSON(endpoint, result, nil)` returning a
non-nil `err`; `checkErr` models `CheckResponse(resp)` returning a non-nil
error; `newStatus` is the value the call decodes into `result.Status`
(`none` when the call leaves `result` unchanged, as a failed request does). -/
structure Poll where
  getErr : Bool
  checkErr : Bool
  newStatus : Option String
deriving DecidableEq

/-- A successful poll that decodes status `s` into `result`. -/
def okPoll (s : String) : Poll := ⟨false, false, some s⟩

/-- A poll whose `GetJSON` fails with a transport error and leaves `result`
unchanged. -/
def transportFailPoll : Poll := ⟨true, false, none⟩

/-- The errors the functions of the source file can produce.
`maxReached m` models `fmt.Errorf("The maximum number %v of checking job status has been reached ", maxtries)`;
`invalidJobId` models `errors.New("invalid job id 0")`;
`validation missing` models `fmt.Errorf("Mandatory input arguments are absent: %s", validate)`;
`transport` / `api` / `marshal` stand for the errors propagated unchanged from
`GetJSON`/`PostJSON`, `CheckResponse` and `json.Marshal`. -/
inductive E
  | transport
  | api
  | maxReached (m : Int)
  | invalidJobId
  | validation (missing : List String)
  | marshal
deriving DecidableEq

/-- One value the goroutine of `DefaultJobHandler` sends on `quitChan`,
together with the poll (1-based index `idx`) during whose iteration the send
happens and the value of `result.Status` at that moment. `err = none` models
`quitChan <- nil`. Since `quitChan` is unbuffered and the caller performs a
single receive, only the first send listed is ever received; a second send
attempt blocks the goroutine forever. -/
structure Send where
  idx : Nat
  status : String
  err : Option E
deriving DecidableEq

/-- The observable behaviour of the goroutine of `DefaultJobHandler` over a
finite trace of transport interactions: `sends` are the channel sends it
attempts, in order; `polls` counts the `GetJSON` calls it performs within the
trace; `returned` records whether the goroutine executed `return` within the
trace (when `false`, the loop is still going and would poll again). -/
structure RunOut where
  sends : List Send
  polls : Nat
  returned : Bool
deriving DecidableEq

/-- Shifts the poll indices of recorded sends by one; used when prepending one
loop iteration in front of a recorded run. -/
def bumpSends (l : List Send) : List Send :=
  l.map fun e => ⟨e.idx + 1, e.status, e.err⟩

/-- Models the body of the goroutine of `DefaultJobHandler` (lines 118-141 of
the source), iterating over a finite trace of polls. State: `cur` is the
current value of `result.Status` (the `result` object persists across
iterations) and `tryCount` the counter passed by value into the closure.
Per iteration, matching the source line by line:
the `GetJSON` call happens (counted in `polls`) and may update `result.Status`;
if it errored, the goroutine sends that error on `quitChan` — and, the source
having no `return` in this branch, simply keeps going;
if `CheckResponse` errored, it sends that error and returns;
if the status is not pending/waiting/running, it sends nil and returns;
otherwise it increments `tryCount` and, when `tryCount <= maxtries && maxtries != -1`,
sends the max-reached error and returns; else it sleeps and iterates. -/
def runWatcher (maxtries : Int) : List Poll → String → Int → RunOut
  | [], _, _ => ⟨[], 0, false⟩
  | p :: rest, cur, tryCount =>
    let st := p.newStatus.getD cur
    let pre : List Send := if p.getErr then [⟨1, st, some E.transport⟩] else []
    if p.checkErr then
      ⟨pre ++ [⟨1, st, some E.api⟩], 1, true⟩
    else if !inFlightStatus st then
      ⟨pre ++ [⟨1, st, none⟩], 1, true⟩
    else if tryCount + 1 ≤ maxtries ∧ maxtries ≠ -1 then
      ⟨pre ++ [⟨1, st, some (E.maxReached maxtries)⟩], 1, true⟩
    else
      let r := runWatcher maxtries rest st (tryCount + 1)
      ⟨pre ++ bumpSends r.sends, r.polls + 1, r.returned⟩

/-- Models `DefaultJobHandler` (lines 114-144): `result := &Job{}` starts with
the zero-value status `""`, `tryCount` starts at `0`, and the goroutine runs
against the given trace of transport interactions. The caller blocks on
`err := <-quitChan` and so observes the first element of `sends`.
`jobid` and `checkInterval` only shape the endpoint string and the sleep
duration and do not affect the delivered outcome. -/
def DefaultJobHandler (polls : List Poll) (jobid checkInterval maxtries : Int) : RunOut :=
  runWatcher maxtries polls "" 0

/-- True when a send carries the attempts-exhausted (`maxReached`) error. -/
def isMaxSend (e : Send) : Bool :=
  match e.err with
  | some (E.maxReached _) => true
  | _ => false

/-- True when a run contains an attempts-exhausted (`maxReached`) send. -/
def hasMaxReached (o : RunOut) : Bool :=
  o.sends.any isMaxSend

/-- Models the part of `Job` a handler returns: the snapshot the caller
receives (`*Job` in Go). Only the status field matters to the claims. -/
structure JobS where
  status : String
deriving DecidableEq

/-- Models `WorkflowJobLaunch` as far as `Launch` inspects it: the
`WorkflowJob` field holding the id of the newly created job. -/
structure WorkflowJobLaunch where
  workflowJob : Int
deriving DecidableEq

/-- The transport collaborator's behaviour during one `Launch` call:
`postErr` models `PostJSON` returning a non-nil error, `checkErr` models
`CheckResponse(resp)` returning a non-nil error, and `workflowJob` is the job
id the successful POST decodes into `result.WorkflowJob`. -/
structure LaunchEnv where
  postErr : Bool
  checkErr : Bool
  workflowJob : Int
deriving DecidableEq

/-- The triple `(*WorkflowJobLaunch, *Job, error)` returned by `Launch`. -/
structure LaunchOut where
  ack : Option WorkflowJobLaunch
  job : Option JobS
  err : Option E
deriving DecidableEq

/-- Models `Launch` (lines 74-93): POST to the launch endpoint, propagate a
transport or `CheckResponse` error with nil results; when the decoded
`result.WorkflowJob` is `0`, return `errors.New("invalid job id 0")` without
calling the handler; otherwise call the caller-supplied `jobHanlder` with the
job id, interval and maxtries, and return the acknowledgment together with the
handler's job snapshot and error unchanged. -/
def Launch (env : LaunchEnv) (jobHanlder : Int → Int → Int → Option JobS × Option E)
    (jobCheckInterval jobCheckmaxtries : Int) : LaunchOut :=
  if env.postErr then ⟨none, none, some E.transport⟩
  else if env.checkErr then ⟨none, none, some E.api⟩
  else if env.workflowJob = 0 then ⟨none, none, some E.invalidJobId⟩
  else
    let r := jobHanlder env.workflowJob jobCheckInterval jobCheckmaxtries
    ⟨some ⟨env.workflowJob⟩, r.1, r.2⟩

/-- Models the global `mandatoryFields` as assigned on line 149 of the source:
`mandatoryFields = []string{"name", "job_type", "inventory", "project"}`. -/
def mandatoryFields : List String := ["name", "job_type", "inventory", "project"]

/-- Modelled from the spec: `ValidateParams` is defined elsewhere in the
repository (only its call site is under `src/`). Per the spec, the create path
"Validates that required fields are present in a create payload before issuing
the request, failing fast with a `ValidationError` naming the missing fields":
given the keys present in the payload and the list of required fields, it
returns the missing required fields and a flag that is true exactly when none
is missing. -/
def ValidateParams (dataKeys fields : List String) : List String × Bool :=
  let missing := fields.filter fun f => !dataKeys.contains f
  (missing, missing.isEmpty)

/-- The transport collaborator's behaviour during one `CreateJobTemplate`
call: `marshalErr` models `json.Marshal(data)` failing, `postErr` a non-nil
`PostJSON` error, `checkErr` a non-nil `CheckResponse` error, and `decoded`
the job-template snapshot a successful POST decodes into `result`. -/
structure CreateEnv where
  marshalErr : Bool
  postErr : Bool
  checkErr : Bool
  decoded : JobS
deriving DecidableEq

/-- The pair `(*JobTemplate, error)` returned by `CreateJobTemplate`, plus
`requested`: whether the function reached the `PostJSON` call (i.e. issued a
network request). -/
structure CreateOut where
  result : Option JobS
  err : Option E
  requested : Bool
deriving DecidableEq

/-- Models `CreateJobTemplate` (lines 147-169): validate the payload against
`mandatoryFields` and, when validation fails, return
`fmt.Errorf("Mandatory input arguments are absent: %s", validate)` before any
request; otherwise marshal the payload and POST it, propagating marshal,
transport and `CheckResponse` errors. The payload is represented by the list
of its keys. -/
def CreateJobTemplate (env : CreateEnv) (dataKeys : List String) : CreateOut :=
  let v := ValidateParams dataKeys mandatoryFields
  if !v.2 then ⟨none, some (E.validation v.1), false⟩
  else if env.marshalErr then ⟨none, some E.marshal, false⟩
  else if env.postErr then ⟨none, some E.transport, true⟩
  else if env.checkErr then ⟨none, some E.api, true⟩
  else ⟨some env.decoded, none, true⟩

/-! Helper lemmas about the watcher loop, shared by several claim theorems. -/

/-- Re-indexing the sends of a run does not change whether one of them is the
attempts-exhausted error. -/
theorem any_isMaxSend_bumpSends (l : List Send) :
    (bumpSends l).any isMaxSend = l.any isMaxSend := by
  simp only [bumpSends, List.any_map]
  rfl

/-- No send recorded by the goroutine under the unbounded sentinel
`maxtries = -1` carries the attempts-exhausted error, over any trace and from
any loop state: the guard `tryCount <= maxtries && maxtries != -1` is then
always false. -/
theorem notMax_of_mem_runWatcher_unbounded :
    ∀ (polls : List Poll) (cur : String) (c : Int) (e : Send),
      e ∈ (runWatcher (-1) polls cur c).sends → isMaxSend e = false := by
  intro polls
  induction polls with
  | nil =>
    intro cur c e he
    simp [runWatcher] at he
  | cons p rest ih =>
    intro cur c e he
    have h1 : ¬(c + 1 ≤ (-1 : Int) ∧ (-1 : Int) ≠ -1) := by
      rintro ⟨-, h⟩; exact h rfl
    simp only [runWatcher] at he
    rw [if_neg h1] at he
    have hpre : ∀ st : String,
        e ∈ (if p.getErr then [(⟨1, st, some E.transport⟩ : Send)] else []) →
          isMaxSend e = false := by
      intro st hmem
      cases hg : p.getErr <;> rw [hg] at hmem <;> simp at hmem
      subst hmem
      rfl
    split at he
    · rcases List.mem_append.mp he with hm | hm
      · exact hpre _ hm
      · rw [List.mem_singleton] at hm
        subst hm
        rfl
    · split at he
      · rcases List.mem_append.mp he with hm | hm
        · exact hpre _ hm
        · rw [List.mem_singleton] at hm
          subst hm
          rfl
      · rcases List.mem_append.mp he with hm | hm
        · exact hpre _ hm
        · simp only [bumpSends] at hm
          rcases List.mem_map.mp hm with ⟨e', he', rfl⟩
          exact ih (p.newStatus.getD cur) (c + 1) e' he'

/-- With the unbounded sentinel `maxtries = -1`, a run never reports the
attempts-exhausted error. -/
theorem runWatcher_unbounded_noMax (polls : List Poll) (cur : String) (c : Int) :
    hasMaxReached (runWatcher (-1) polls cur c) = false := by
  simp only [hasMaxReached, List.any_eq_false]
  intro e he
  simp [notMax_of_mem_runWatcher_unbounded polls cur c e he]

/-- With `maxtries = 0` the exhaustion guard `tryCount + 1 <= 0` can never
fire once `tryCount` is non-negative, so the loop behaves exactly as with the
unbounded sentinel `-1`. -/
theorem runWatcher_zero_eq_unbounded :
    ∀ (polls : List Poll) (cur : String) (c : Int), 0 ≤ c →
      runWatcher 0 polls cur c = runWatcher (-1) polls cur c := by
  intro polls
  induction polls with
  | nil => intro cur c _; rfl
  | cons p rest ih =>
    intro cur c hc
    have h0 : ¬(c + 1 ≤ (0 : Int) ∧ (0 : Int) ≠ -1) := by
      rintro ⟨h, -⟩; omega
    have h1 : ¬(c + 1 ≤ (-1 : Int) ∧ (-1 : Int) ≠ -1) := by
      rintro ⟨-, h⟩; exact h rfl
    simp only [runWatcher]
    rw [if_neg h0, if_neg h1, ih (p.newStatus.getD cur) (c + 1) (by omega)]

/-- With the unbounded sentinel, a run of `k` in-flight polls followed by one
terminal poll resolves exactly at the terminal poll: a single `nil` send at
poll `k + 1`, `k + 1` polls performed, goroutine returned. -/
theorem runWatcher_unbounded_terminal (s t : String)
    (hs : inFlightStatus s = true) (ht : inFlightStatus t = false) :
    ∀ (k : Nat) (cur : String) (c : Int),
      runWatcher (-1) (List.replicate k (okPoll s) ++ [okPoll t]) cur c
        = ⟨[⟨k + 1, t, none⟩], k + 1, true⟩ := by
  intro k
  induction k with
  | zero =>
    intro cur c
    simp [runWatcher, okPoll, ht]
  | succ n ih =>
    intro cur c
    have h1 : ¬(c + 1 ≤ (-1 : Int) ∧ (-1 : Int) ≠ -1) := by
      rintro ⟨-, h⟩; exact h rfl
    rw [List.replicate_succ, List.cons_append]
    simp only [runWatcher, show (okPoll s).checkErr = false from rfl,
      show (okPoll s).getErr = false from rfl,
      show (okPoll s).newStatus.getD cur = s from rfl, hs,
      Bool.not_true, Bool.false_eq_true, if_false, List.nil_append]
    rw [if_neg h1, ih s (c + 1)]
    simp [bumpSends]

/-! Claim theorems. -/

/-- C1: the claim says that with bound 5 and polls returning `running`,
`running`, `successful`, `DefaultJobHandler` resolves with the successful
snapshot, no error and exactly 3 polls. The code instead fires its exhaustion
guard `tryCount <= maxtries && maxtries != -1` on the very first in-flight
poll: the run performs exactly 1 poll and delivers the max-reached error with
the `running` snapshot. -/
theorem C1_bound5_scenario_fails_on_first_poll :
    DefaultJobHandler [okPoll "running", okPoll "running", okPoll "successful"] 7 1 5
      = ⟨[⟨1, "running", some (E.maxReached 5)⟩], 1, true⟩ := rfl

/-- C2 counterexample: the claim quantifies over every finite bound
`maxtries ≠ -1`, but with the finite bound `N = 0` and an in-flight sequence of
length 2 > 0 the goroutine sends nothing, has already performed 2 polls (more
than the bound permits) and has not returned — it keeps polling instead of
resolving with the attempts-exhausted error. -/
theorem C2_zero_bound_never_exhausts :
    DefaultJobHandler [okPoll "pending", okPoll "running"] 7 1 0 = ⟨[], 2, false⟩ ∧
    hasMaxReached (DefaultJobHandler [okPoll "pending", okPoll "running"] 7 1 0) = false :=
  ⟨rfl, rfl⟩

/-- C2 (amended to finite bounds `N ≥ 1`): for every finite attempt bound
`N ≥ 1` and every poll trace whose first poll succeeds with an in-flight
status (which covers every sequence of in-flight statuses longer than `N`),
`DefaultJobHandler` resolves with the attempts-exhausted error carrying the
last observed snapshot, after exactly one poll — in particular at most `N`
polls are performed. -/
theorem C2_finite_positive_bound_exhausts (N : Int) (hN : 1 ≤ N) (s : String)
    (hs : inFlightStatus s = true) (ps : List Poll) (jobid ci : Int) :
    DefaultJobHandler (okPoll s :: ps) jobid ci N
        = ⟨[⟨1, s, some (E.maxReached N)⟩], 1, true⟩ ∧
      ((DefaultJobHandler (okPoll s :: ps) jobid ci N).polls : Int) ≤ N := by
  have hcond : (0 : Int) + 1 ≤ N ∧ N ≠ -1 := ⟨by omega, by omega⟩
  have hmain : DefaultJobHandler (okPoll s :: ps) jobid ci N
      = ⟨[⟨1, s, some (E.maxReached N)⟩], 1, true⟩ := by
    simp only [DefaultJobHandler, runWatcher, show (okPoll s).checkErr = false from rfl,
      show (okPoll s).getErr = false from rfl,
      show (okPoll s).newStatus.getD "" = s from rfl, hs,
      Bool.not_true, Bool.false_eq_true, if_false, List.nil_append]
    rw [if_pos hcond]
  refine ⟨hmain, ?_⟩
  rw [hmain]
  simpa using hN

/-- Witness for C2: at bound 2 and three `running` polls, the watcher delivers
the max-reached error at poll 1. -/
theorem C2_finite_positive_bound_exhausts_witness :
    DefaultJobHandler (okPoll "running" :: [okPoll "running", okPoll "running"]) 7 1 2
        = ⟨[⟨1, "running", some (E.maxReached 2)⟩], 1, true⟩ ∧
      ((DefaultJobHandler (okPoll "running" :: [okPoll "running", okPoll "running"]) 7 1 2).polls : Int) ≤ 2 :=
  C2_finite_positive_bound_exhausts 2 (by norm_num) "running" rfl
    [okPoll "running", okPoll "running"] 7 1

/-- C3: the claim says a poll failure immediately resolves the watch, with no
further polls and no retry. The caller does receive the transport error of
poll 2 (the first send), but the source lacks a `return` after
`quitChan <- err`, so with the stale in-flight status still in `result` the
goroutine sleeps and polls again: 3 polls happen within this trace and the
loop has not returned — it would keep polling. -/
theorem C3_transport_error_does_not_stop_loop :
    DefaultJobHandler [okPoll "running", transportFailPoll, okPoll "running"] 7 1 (-1)
      = ⟨[⟨2, "running", some E.transport⟩], 3, false⟩ := rfl

/-- C4: with the unbounded sentinel `maxtries = -1`, no run ever reports the
attempts-exhausted error, and a trace of `k` in-flight polls followed by one
terminal poll resolves exactly at the terminal poll: one `nil` send at poll
`k + 1`, with `k + 1` polls performed. -/
theorem C4_unbounded_resolves_only_at_terminal :
    (∀ (polls : List Poll) (jobid ci : Int),
        hasMaxReached (DefaultJobHandler polls jobid ci (-1)) = false) ∧
    (∀ (k : Nat) (s t : String) (jobid ci : Int),
        inFlightStatus s = true → inFlightStatus t = false →
        DefaultJobHandler (List.replicate k (okPoll s) ++ [okPoll t]) jobid ci (-1)
          = ⟨[⟨k + 1, t, none⟩], k + 1, true⟩) :=
  ⟨fun polls _ _ => runWatcher_unbounded_noMax polls "" 0,
   fun k s t _ _ hs ht => runWatcher_unbounded_terminal s t hs ht k "" 0⟩

/-- Witness for C4: 800 `running` polls followed by one `successful` poll, at
`maxtries = -1`, resolve with the successful snapshot at poll 801; a short
all-terminal trace reports no exhaustion. -/
theorem C4_unbounded_resolves_only_at_terminal_witness :
    hasMaxReached (DefaultJobHandler [okPoll "pending", okPoll "failed"] 7 1 (-1)) = false ∧
    DefaultJobHandler (List.replicate 800 (okPoll "running") ++ [okPoll "successful"]) 7 1 (-1)
      = ⟨[⟨801, "successful", none⟩], 801, true⟩ :=
  ⟨C4_unbounded_resolves_only_at_terminal.1 [okPoll "pending", okPoll "failed"] 7 1,
   C4_unbounded_resolves_only_at_terminal.2 800 "running" "successful" 7 1 rfl rfl⟩

/-- C5: when the launch acknowledgment decodes `WorkflowJob = 0`,
`Launch` returns nil results with the invalid-job-id error, for every
caller-supplied handler — the handler is never consulted (the result does not
depend on it). -/
theorem C5_zero_job_id_error_no_handler (env : LaunchEnv) (i m : Int)
    (hp : env.postErr = false) (hc : env.checkErr = false) (h0 : env.workflowJob = 0)
    (jobHanlder : Int → Int → Int → Option JobS × Option E) :
    Launch env jobHanlder i m = ⟨none, none, some E.invalidJobId⟩ := by
  simp [Launch, hp, hc, h0]

/-- Witness for C5: a launch decoding job id 0, handed a handler that would
report a successful job, still fails with the invalid-job-id error. -/
theorem C5_zero_job_id_error_no_handler_witness :
    Launch ⟨false, false, 0⟩ (fun _ _ _ => (some ⟨"successful"⟩, none)) 1 5
      = ⟨none, none, some E.invalidJobId⟩ :=
  C5_zero_job_id_error_no_handler ⟨false, false, 0⟩ 1 5 rfl rfl rfl
    (fun _ _ _ => (some ⟨"successful"⟩, none))

/-- C6: a create payload missing at least one mandatory field fails with the
validation error naming exactly the missing mandatory fields, and the request
flag stays false — `PostJSON` is never reached. -/
theorem C6_missing_mandatory_field_no_request (env : CreateEnv) (dataKeys : List String)
    (f : String) (hf : f ∈ mandatoryFields) (hmiss : dataKeys.contains f = false) :
    CreateJobTemplate env dataKeys
      = ⟨none, some (E.validation (mandatoryFields.filter fun g => !dataKeys.contains g)),
         false⟩ := by
  have hfm : f ∈ mandatoryFields.filter fun g => !dataKeys.contains g :=
    List.mem_filter.mpr ⟨hf, by simp only [hmiss, Bool.not_false]⟩
  have hne : (mandatoryFields.filter fun g => !dataKeys.contains g) ≠ [] :=
    List.ne_nil_of_mem hfm
  have hempty : (mandatoryFields.filter fun g => !dataKeys.contains g).isEmpty = false := by
    simpa [List.isEmpty_iff] using hne
  simp only [CreateJobTemplate, ValidateParams, hempty, Bool.not_false, eq_self_iff_true,
    if_true]

/-- Witness for C6: a payload with keys name, job_type, project (inventory
missing) fails with a validation error naming inventory, without a request. -/
theorem C6_missing_mandatory_field_no_request_witness :
    CreateJobTemplate ⟨false, false, false, ⟨""⟩⟩ ["name", "job_type", "project"]
      = ⟨none, some (E.validation ["inventory"]), false⟩ :=
  (C6_missing_mandatory_field_no_request ⟨false, false, false, ⟨""⟩⟩
      ["name", "job_type", "project"] "inventory" (by decide) (by decide)).trans
    (by decide)

/-- C7: when the acknowledgment decodes a non-zero job id and neither the POST
nor `CheckResponse` fails, `Launch` returns the acknowledgment together with
exactly the job snapshot and error the caller-supplied handler produces for
that job id, unchanged. -/
theorem C7_valid_id_returns_handler_result (env : LaunchEnv) (i m : Int)
    (hp : env.postErr = false) (hc : env.checkErr = false) (hnz : env.workflowJob ≠ 0)
    (jobHanlder : Int → Int → Int → Option JobS × Option E) :
    Launch env jobHanlder i m
      = ⟨some ⟨env.workflowJob⟩, (jobHanlder env.workflowJob i m).1,
         (jobHanlder env.workflowJob i m).2⟩ := by
  simp [Launch, hp, hc, hnz]

/-- Witness for C7: job id 7 with a handler reporting a successful job and no
error; `Launch` hands both through together with the acknowledgment. -/
theorem C7_valid_id_returns_handler_result_witness :
    Launch ⟨false, false, 7⟩ (fun _ _ _ => (some ⟨"successful"⟩, none)) 1 5
      = ⟨some ⟨7⟩, some ⟨"successful"⟩, none⟩ :=
  C7_valid_id_returns_handler_result ⟨false, false, 7⟩ 1 5 rfl rfl (by decide)
    (fun _ _ _ => (some ⟨"successful"⟩, none))

/-- C8: the claim says exactly one outcome is delivered and no background loop
keeps running once the caller has its outcome. Because the transport-error
branch lacks a `return`: (i) after the caller receives the transport error of
poll 2, the goroutine performs two further polls within this trace and has not
returned — the loop keeps running (and keeps mutating the shared `result`)
after delivery; (ii) when `GetJSON` and `CheckResponse` fail on the same
iteration, the goroutine attempts two sends on `quitChan` — only the first can
be received, the second blocks the goroutine forever. -/
theorem C8_outcome_delivery_violated :
    DefaultJobHandler [okPoll "pending", transportFailPoll, okPoll "pending", okPoll "pending"]
        9 1 (-1)
      = ⟨[⟨2, "pending", some E.transport⟩], 4, false⟩ ∧
    (DefaultJobHandler [⟨true, true, none⟩] 9 1 5).sends
      = [⟨1, "", some E.transport⟩, ⟨1, "", some E.api⟩] :=
  ⟨rfl, rfl⟩

/-- C9: the bound value `maxtries = 0` behaves exactly like the unbounded
sentinel `-1`: the runs coincide on every trace, and in particular the
attempts-exhausted error is never reported (the guard `tryCount <= 0` cannot
hold once `tryCount` has been incremented from 0). -/
theorem C9_zero_bound_equals_unbounded (polls : List Poll) (jobid ci : Int) :
    DefaultJobHandler polls jobid ci 0 = DefaultJobHandler polls jobid ci (-1) ∧
    hasMaxReached (DefaultJobHandler polls jobid ci 0) = false := by
  have h := runWatcher_zero_eq_unbounded polls "" 0 le_rfl
  refine ⟨h, ?_⟩
  show hasMaxReached (runWatcher 0 polls "" 0) = false
  rw [h]
  exact runWatcher_unbounded_noMax polls "" 0

/-- C10: any first-poll status other than pending, waiting or running —
including unknown strings and the empty string — is treated as terminal:
the watcher resolves at poll 1 with that snapshot and a nil error, for every
`maxtries`. -/
theorem C10_unknown_status_is_terminal (s : String)
    (h1 : s ≠ "pending") (h2 : s ≠ "waiting") (h3 : s ≠ "running")
    (rest : List Poll) (jobid ci m : Int) :
    DefaultJobHandler (okPoll s :: rest) jobid ci m = ⟨[⟨1, s, none⟩], 1, true⟩ := by
  have hs : inFlightStatus s = false := by
    simp [inFlightStatus, PENDING, WAITING, RUNNING, h1, h2, h3]
  simp only [DefaultJobHandler, runWatcher, show (okPoll s).checkErr = false from rfl,
    show (okPoll s).getErr = false from rfl,
    show (okPoll s).newStatus.getD "" = s from rfl, hs,
    Bool.not_false, Bool.false_eq_true, if_false, if_true, List.nil_append]

/-- Witness for C10: the empty status (the zero value a failed decode leaves
in place) resolves the watch immediately with a nil error. -/
theorem C10_unknown_status_is_terminal_witness :
    DefaultJobHandler (okPoll "" :: []) 7 1 5 = ⟨[⟨1, "", none⟩], 1, true⟩ :=
  C10_unknown_status_is_terminal "" (by decide) (by decide) (by decide) [] 7 1 5

end Awx
